import Mathlib

/-!
# Fan controller core (src/main.c): shallow embedding

Machine integers are natural numbers reduced explicitly: `uint16_t` values modulo `2 ^ 16`,
`uint32_t` values modulo `2 ^ 32`.  A C division whose divisor is zero is undefined behaviour and
is modelled by `none`.

Values that the program obtains from the Zephyr kernel or from the devicetree are parameters:

* the millisecond tick read by `tacho_callback` and `check_no_spin`; the expression that produces
  it, `k_cyc_to_ms_near32(k_cycle_get_32())`, is `tick_source`, with the rate of the hardware
  cycle counter as a parameter;
* the tachometer pin number and the PWM period of a channel;
* the outcome of `adc_read_dt` and the conversion done by `adc_raw_to_millivolts_dt`.
-/

namespace Fan32

/-! ## Constants -/

/-- Number of values of a `uint16_t`. -/
def UINT16_MOD : Nat := 2 ^ 16

/-- Number of values of a `uint32_t`. -/
def UINT32_MOD : Nat := 2 ^ 32

def FAN0_MAX_RPM : Nat := 1800
def FAN0_MIN_RPM : Nat := 0
def FAN1_MAX_RPM : Nat := 4000
def FAN1_MIN_RPM : Nat := 0

def FAN_TACHO_INT_PER_ROTATION : Nat := 2
def MS_TO_M : Nat := 60 * 1000
def FAN_NO_SPIN_TIME : Nat := 1 * 1000
/-- Full-scale potentiometer voltage in millivolts. -/
def FAN_POTI_MAX_VOLTAGE : Nat := 3000

/-! ## Data model -/

/-- The per-channel record `fan_control`.  Of the peripheral handles only the parts the program
computes with are kept: `fan_tacho.pin` and `fan_pwm.period`. -/
structure fan_control where
  -- Field `fan_tacho.pin`.
  tacho_pin : Nat
  -- Field `fan_pwm.period`, a `uint32_t`.
  pwm_period : Nat
  -- Field `rpm_max`, a `const uint16_t`.
  rpm_max : Nat
  -- Field `rpm_min`, a `const uint16_t`.
  rpm_min : Nat
  -- Field `rpm_measured`, a `uint16_t`.
  rpm_measured : Nat
  -- Field `rpm_target`, a `uint16_t`.
  rpm_target : Nat
  -- Field `last_int`, a `uint32_t`.
  last_int : Nat
  deriving DecidableEq, Repr

/-- The initialiser macro `FAN_CONTROL_CHANNEL`: bounds from the per-fan constants, the three
mutable fields zero.  Pin and period come from the devicetree. -/
def FAN_CONTROL_CHANNEL (tacho_pin pwm_period rpm_max rpm_min : Nat) : fan_control :=
  { tacho_pin := tacho_pin
    pwm_period := pwm_period
    rpm_max := rpm_max
    rpm_min := rpm_min
    rpm_measured := 0
    rpm_target := 0
    last_int := 0 }

/-- The static array `fan_channels`. -/
def fan_channels (pin0 period0 pin1 period1 : Nat) : List fan_control :=
  [FAN_CONTROL_CHANNEL pin0 period0 FAN0_MAX_RPM FAN0_MIN_RPM,
   FAN_CONTROL_CHANNEL pin1 period1 FAN1_MAX_RPM FAN1_MIN_RPM]

/-- Every field of the record lies in the range of its C type. -/
def fan_control.in_range (c : fan_control) : Prop :=
  c.pwm_period < UINT32_MOD ∧ c.rpm_max < UINT16_MOD ∧ c.rpm_min < UINT16_MOD ∧
    c.rpm_measured < UINT16_MOD ∧ c.rpm_target < UINT16_MOD ∧ c.last_int < UINT32_MOD

instance (c : fan_control) : Decidable c.in_range := by
  unfold fan_control.in_range; infer_instance

/-! ## Machine arithmetic -/

/-- Subtraction of two `uint32_t` values: the difference modulo `2 ^ 32`. -/
def u32_sub (a b : Nat) : Nat :=
  (a % UINT32_MOD + (UINT32_MOD - b % UINT32_MOD)) % UINT32_MOD

/-- Conversion of an `int32_t` to `uint32_t`: the value modulo `2 ^ 32`. -/
def int32_to_u32 (x : Int) : Nat :=
  (x % (UINT32_MOD : Int)).toNat

/-- The macro `BIT(n)`, `1UL << n`. -/
def BIT (n : Nat) : Nat := 2 ^ n

/-! ## Tick source -/

/-- The Zephyr kernel call `k_cycle_get_32()`: the hardware cycle counter read as a `uint32_t`,
`cycles` being the number of cycles elapsed since it started.  The counter wraps every `2 ^ 32`
cycles. -/
def k_cycle_get_32 (cycles : Nat) : Nat := cycles % UINT32_MOD

/-- The Zephyr conversion `k_cyc_to_ms_near32`: a cycle count converted to milliseconds for a
counter running at `hz` cycles per second, rounded to the nearest millisecond, as a
`uint32_t`. -/
def k_cyc_to_ms_near32 (hz cyc : Nat) : Nat :=
  ((cyc * 1000 + hz / 2) / hz) % UINT32_MOD

/-- The expression `k_cyc_to_ms_near32(k_cycle_get_32())` from which `tacho_callback` and
`check_no_spin` take their tick. -/
def tick_source (hz cycles : Nat) : Nat :=
  k_cyc_to_ms_near32 hz (k_cycle_get_32 cycles)

/-! ## Tachometer sampler: `tacho_callback` -/

/-- Body of the loop of `tacho_callback` for the channel whose pin matched, `current_tick` being
the value read from the tick source.  The quotient `(MS_TO_M / FAN_TACHO_INT_PER_ROTATION) /
(current_tick - last_int)` is an unsigned 32-bit division stored into a `uint16_t`; a zero divisor
is undefined behaviour. -/
def tacho_callback_body (c : fan_control) (current_tick : Nat) : Option fan_control :=
  let delta := u32_sub current_tick c.last_int
  if delta = 0 then none
  else
    some { c with
      rpm_measured := ((MS_TO_M / FAN_TACHO_INT_PER_ROTATION) / delta) % UINT16_MOD
      last_int := current_tick }

/-- The interrupt handler `tacho_callback`: the first channel with `BIT(pin) == pins` is updated
and the handler returns; without a match nothing changes. -/
def tacho_callback : List fan_control → Nat → Nat → Option (List fan_control)
  | [], _, _ => some []
  | c :: cs, pins, current_tick =>
    if BIT c.tacho_pin = pins then
      (tacho_callback_body c current_tick).map (fun c1 => c1 :: cs)
    else
      (tacho_callback cs pins current_tick).map (fun cs1 => c :: cs1)

/-! ## Stall detector: `check_no_spin` -/

/-- Body of the loop of `check_no_spin` for one channel, `now` being the tick read in that
iteration. -/
def check_no_spin_body (c : fan_control) (now : Nat) : fan_control :=
  if c.rpm_measured ≠ 0 then
    let no_int_time := u32_sub now c.last_int
    if no_int_time > FAN_NO_SPIN_TIME then { c with rpm_measured := 0 } else c
  else c

/-- Loop of `check_no_spin` from channel index `i` on; `now j` is the tick read in iteration
`j`. -/
def check_no_spin_from (now : Nat → Nat) : Nat → List fan_control → List fan_control
  | _, [] => []
  | i, c :: cs => check_no_spin_body c (now i) :: check_no_spin_from now (i + 1) cs

/-- The function `check_no_spin`. -/
def check_no_spin (fans : List fan_control) (now : Nat → Nat) : List fan_control :=
  check_no_spin_from now 0 fans

/-! ## Target mapper: `check_potis` -/

/-- Entry `adc_readings[i]` after the read loop: the buffer is zero-initialised and the return
value of `adc_read_dt` is ignored, so a failed read (`none`) leaves the entry at zero. -/
def adc_reading (r : Option Nat) : Nat :=
  match r with
  | some raw => raw % UINT16_MOD
  | none => 0

/-- Body of the second loop of `check_potis` for one channel, `tmp` being the `int32_t` left by
`adc_raw_to_millivolts_dt`.  The product `(uint32_t)rpm_max * tmp` is taken in `uint32_t`, divided
by `FAN_POTI_MAX_VOLTAGE`, and stored into the `uint16_t` field; then the lower clamp. -/
def check_potis_body (c : fan_control) (tmp : Int) : fan_control :=
  let stored :=
    ((c.rpm_max % UINT32_MOD * int32_to_u32 tmp) % UINT32_MOD / FAN_POTI_MAX_VOLTAGE) % UINT16_MOD
  if stored < c.rpm_min then { c with rpm_target := c.rpm_min }
  else { c with rpm_target := stored }

/-- Channel `i` of `check_potis`: read (outcome `adc_read i`), convert, map. -/
def check_potis_channel (adc_read : Nat → Option Nat) (raw_to_millivolts : Nat → Int → Int)
    (i : Nat) (c : fan_control) : fan_control :=
  check_potis_body c (raw_to_millivolts i (adc_reading (adc_read i)))

/-- Loop of `check_potis` from channel index `i` on. -/
def check_potis_from (adc_read : Nat → Option Nat) (raw_to_millivolts : Nat → Int → Int) :
    Nat → List fan_control → List fan_control
  | _, [] => []
  | i, c :: cs =>
    check_potis_channel adc_read raw_to_millivolts i c ::
      check_potis_from adc_read raw_to_millivolts (i + 1) cs

/-- The function `check_potis`. -/
def check_potis (fans : List fan_control) (adc_read : Nat → Option Nat)
    (raw_to_millivolts : Nat → Int → Int) : List fan_control :=
  check_potis_from adc_read raw_to_millivolts 0 fans

/-! ## Duty driver: `pwm_update` -/

/-- Body of the loop of `pwm_update`: the pulse length handed to `pwm_set_pulse_dt`.  The product
is taken in `uint32_t`; a zero `rpm_max` is a division by zero. -/
def pwm_update_body (c : fan_control) : Option Nat :=
  if c.rpm_max = 0 then none
  else some ((c.pwm_period % UINT32_MOD * c.rpm_target) % UINT32_MOD / c.rpm_max)

/-- Linear interpolation between `rpm_min` and `rpm_max` at `v / FAN_POTI_MAX_VOLTAGE`, truncated
toward zero, as the specification words it. -/
def lerp_spec (rpm_min rpm_max v : Nat) : Nat :=
  rpm_min + (rpm_max - rpm_min) * v / FAN_POTI_MAX_VOLTAGE

/-! ## Machine arithmetic: lemmas -/

theorem u32_sub_self (a : Nat) : u32_sub a a = 0 := by
  unfold u32_sub UINT32_MOD
  omega

theorem u32_sub_eq_zero_iff (a b : Nat) (ha : a < UINT32_MOD) (hb : b < UINT32_MOD) :
    u32_sub a b = 0 ↔ a = b := by
  unfold u32_sub
  unfold UINT32_MOD at *
  omega

theorem u32_sub_of_le (a b : Nat) (ha : a < UINT32_MOD) (hba : b ≤ a) :
    u32_sub a b = a - b := by
  unfold u32_sub
  unfold UINT32_MOD at *
  omega

theorem u32_sub_of_lt (a b : Nat) (hb : b < UINT32_MOD) (hab : a < b) :
    u32_sub a b = a + UINT32_MOD - b := by
  unfold u32_sub
  unfold UINT32_MOD at *
  omega

theorem u32_sub_wrapped (last d : Nat) (hd : d < UINT32_MOD) :
    u32_sub ((last + d) % UINT32_MOD) last = d := by
  unfold u32_sub
  unfold UINT32_MOD at *
  omega

theorem rpm_quotient_fits (delta : Nat) :
    ((MS_TO_M / FAN_TACHO_INT_PER_ROTATION) / delta) % UINT16_MOD = 30000 / delta := by
  have h : MS_TO_M / FAN_TACHO_INT_PER_ROTATION = 30000 := by decide
  rw [h]
  apply Nat.mod_eq_of_lt
  have h1 : 30000 / delta ≤ 30000 := Nat.div_le_self 30000 delta
  unfold UINT16_MOD
  omega

/-- The update `tacho_callback` makes for a non-zero interval. -/
theorem tacho_callback_body_of_ne (c : fan_control) (tick : Nat)
    (h : u32_sub tick c.last_int ≠ 0) :
    tacho_callback_body c tick =
      some { c with rpm_measured := 30000 / u32_sub tick c.last_int, last_int := tick } := by
  unfold tacho_callback_body
  simp only [h, if_false, rpm_quotient_fits]

/-- A zero interval makes `tacho_callback` divide by zero. -/
theorem tacho_callback_body_of_eq (c : fan_control) : tacho_callback_body c c.last_int = none := by
  unfold tacho_callback_body
  simp [u32_sub_self]

/-! ## The loops over `fan_channels` -/

/-- Dispatch in `tacho_callback`: a channel whose pin matches, preceded only by channels whose
pins do not, is the one updated; every other channel is untouched. -/
theorem tacho_callback_dispatch (pre post : List fan_control) (c : fan_control)
    (pins tick : Nat) (hpre : ∀ p ∈ pre, BIT p.tacho_pin ≠ pins) (hc : BIT c.tacho_pin = pins) :
    tacho_callback (pre ++ c :: post) pins tick =
      (tacho_callback_body c tick).map (fun c1 => pre ++ c1 :: post) := by
  induction pre with
  | nil => simp [tacho_callback, hc]
  | cons p ps ih =>
    have hp : BIT p.tacho_pin ≠ pins := hpre p (List.mem_cons_self p ps)
    have hps : ∀ q ∈ ps, BIT q.tacho_pin ≠ pins :=
      fun q hq => hpre q (List.mem_cons_of_mem p hq)
    have hstep : tacho_callback (p :: (ps ++ c :: post)) pins tick =
        (tacho_callback (ps ++ c :: post) pins tick).map (fun cs1 => p :: cs1) := by
      simp only [tacho_callback, hp, if_false]
    rw [List.cons_append, hstep, ih hps, Option.map_map]
    rfl

/-- A pin mask matching no channel leaves `fan_channels` unchanged. -/
theorem tacho_callback_no_match (fans : List fan_control) (pins tick : Nat)
    (h : ∀ p ∈ fans, BIT p.tacho_pin ≠ pins) :
    tacho_callback fans pins tick = some fans := by
  induction fans with
  | nil => rfl
  | cons p ps ih =>
    have hp : BIT p.tacho_pin ≠ pins := h p (List.mem_cons_self p ps)
    have hps : ∀ q ∈ ps, BIT q.tacho_pin ≠ pins :=
      fun q hq => h q (List.mem_cons_of_mem p hq)
    simp only [tacho_callback, hp, if_false, ih hps, Option.map_some']

/-- Channel `i` after `check_no_spin` is the loop body applied to channel `i`. -/
theorem check_no_spin_from_get (now : Nat → Nat) (fans : List fan_control) (k i : Nat) :
    (check_no_spin_from now k fans)[i]? =
      (fans[i]?).map (fun c => check_no_spin_body c (now (k + i))) := by
  induction fans generalizing k i with
  | nil => simp [check_no_spin_from]
  | cons c cs ih =>
    cases i with
    | zero => simp [check_no_spin_from]
    | succ j =>
      simp only [check_no_spin_from, List.getElem?_cons_succ, ih (k + 1) j]
      have hk : k + 1 + j = k + (j + 1) := by omega
      rw [hk]

/-- Channel `i` after `check_potis` is the loop body applied to channel `i`. -/
theorem check_potis_from_get (adc_read : Nat → Option Nat)
    (raw_to_millivolts : Nat → Int → Int) (fans : List fan_control) (k i : Nat) :
    (check_potis_from adc_read raw_to_millivolts k fans)[i]? =
      (fans[i]?).map (check_potis_channel adc_read raw_to_millivolts (k + i)) := by
  induction fans generalizing k i with
  | nil => simp [check_potis_from]
  | cons c cs ih =>
    cases i with
    | zero => simp [check_potis_from]
    | succ j =>
      simp only [check_potis_from, List.getElem?_cons_succ, ih (k + 1) j]
      have hk : k + 1 + j = k + (j + 1) := by omega
      rw [hk]

/-! ## Tachometer sampler -/

/-- Two edges, the first of which does not fall on the tick stored in `last_int`: the second
edge is `d` ticks after the first, and the channel ends with `rpm_measured = 60000 / (2 * d)` and
`last_int` the tick of the second edge. -/
theorem tacho_callback_body_two_edges (c : fan_control) (t0 d : Nat)
    (ht0 : t0 < UINT32_MOD) (hc : c.last_int < UINT32_MOD) (hfirst : c.last_int ≠ t0)
    (hd0 : 0 < d) (hd : d < UINT32_MOD) :
    (tacho_callback_body c t0).bind
        (fun c1 => tacho_callback_body c1 ((t0 + d) % UINT32_MOD)) =
      some { c with
        rpm_measured := 60000 / (FAN_TACHO_INT_PER_ROTATION * d)
        last_int := (t0 + d) % UINT32_MOD } := by
  have h1 : u32_sub t0 c.last_int ≠ 0 := by
    rw [Ne, u32_sub_eq_zero_iff t0 c.last_int ht0 hc]
    exact fun h => hfirst h.symm
  rw [tacho_callback_body_of_ne c t0 h1]
  simp only [Option.some_bind]
  have h2 : u32_sub ((t0 + d) % UINT32_MOD) t0 = d := u32_sub_wrapped t0 d hd
  rw [tacho_callback_body_of_ne _ _ (by simp only [h2]; omega)]
  simp only [h2]
  have h3 : 60000 / (FAN_TACHO_INT_PER_ROTATION * d) = 30000 / d := by
    unfold FAN_TACHO_INT_PER_ROTATION
    rw [← Nat.div_div_eq_div_mul]
  rw [h3]

theorem tacho_callback_body_two_edges_witness :
    (tacho_callback_body (FAN_CONTROL_CHANNEL 4 40000 4000 0) 7).bind
        (fun c1 => tacho_callback_body c1 ((7 + 20) % UINT32_MOD)) =
      some { FAN_CONTROL_CHANNEL 4 40000 4000 0 with
        rpm_measured := 60000 / (FAN_TACHO_INT_PER_ROTATION * 20)
        last_int := (7 + 20) % UINT32_MOD } :=
  tacho_callback_body_two_edges (FAN_CONTROL_CHANNEL 4 40000 4000 0) 7 20
    (by decide) (by decide) (by decide) (by decide) (by decide)

/-- C1, evaluated at the failing input.  On a freshly initialised channel (`last_int = 0`) a first
edge at tick `t0 = 0` makes `tacho_callback` divide by `current_tick - last_int = 0`, so the
two-edge sequence at ticks `0` and `0 + 1` has no defined result instead of ending with
`rpm_measured = 60000 / (2 * 1)`. -/
theorem tacho_callback_first_edge_zero_interval :
    tacho_callback_body (FAN_CONTROL_CHANNEL 4 40000 FAN1_MAX_RPM FAN1_MIN_RPM) 0 = none ∧
    (tacho_callback_body (FAN_CONTROL_CHANNEL 4 40000 FAN1_MAX_RPM FAN1_MIN_RPM) 0).bind
        (fun c1 => tacho_callback_body c1 (0 + 1)) = none ∧
    tacho_callback (fan_channels 3 40000 4 40000) (BIT 4) 0 = none := by
  decide

/-- C2, counterexample.  A channel with `rpm_measured = 1500` and `last_int = 100` receives an edge
at the earlier tick `50`: the interval is the wrapped difference `2 ^ 32 - 50`, and
`rpm_measured` is overwritten with `30000 / (2 ^ 32 - 50) = 0` instead of being left at `1500`. -/
theorem tacho_callback_earlier_tick_overwrites :
    (50 : Nat) ≤
      ({ FAN_CONTROL_CHANNEL 4 40000 4000 0 with rpm_measured := 1500, last_int := 100 } :
        fan_control).last_int ∧
    tacho_callback_body
        { FAN_CONTROL_CHANNEL 4 40000 4000 0 with rpm_measured := 1500, last_int := 100 } 50 =
      some { FAN_CONTROL_CHANNEL 4 40000 4000 0 with rpm_measured := 0, last_int := 50 } ∧
    ¬ ∃ c1 : fan_control,
      tacho_callback_body
          { FAN_CONTROL_CHANNEL 4 40000 4000 0 with rpm_measured := 1500, last_int := 100 } 50 =
        some c1 ∧
      c1.rpm_measured = 1500 := by
  have h : tacho_callback_body
        { FAN_CONTROL_CHANNEL 4 40000 4000 0 with rpm_measured := 1500, last_int := 100 } 50 =
      some { FAN_CONTROL_CHANNEL 4 40000 4000 0 with rpm_measured := 0, last_int := 50 } := by
    decide
  refine ⟨by decide, h, ?_⟩
  rintro ⟨c1, h1, h2⟩
  rw [h] at h1
  cases h1
  exact absurd h2 (by decide)

/-- C2, amended.  For every channel and every tick `now` strictly before the stored `last_int`,
`tacho_callback` divides by the wrapped 32-bit interval `now + 2 ^ 32 - last_int`, which is
positive: it returns, stores `30000` divided by that interval in `rpm_measured`, and sets
`last_int = now`. -/
theorem tacho_callback_body_earlier_tick (c : fan_control) (now : Nat)
    (hc : c.last_int < UINT32_MOD) (hlt : now < c.last_int) :
    0 < now + UINT32_MOD - c.last_int ∧
    tacho_callback_body c now =
      some { c with
        rpm_measured := 30000 / (now + UINT32_MOD - c.last_int)
        last_int := now } := by
  have h := u32_sub_of_lt now c.last_int hc hlt
  have hpos : 0 < now + UINT32_MOD - c.last_int := by omega
  refine ⟨hpos, ?_⟩
  rw [tacho_callback_body_of_ne c now (by rw [h]; omega), h]

theorem tacho_callback_body_earlier_tick_witness :
    0 < 50 + UINT32_MOD - 100 ∧
    tacho_callback_body
        { FAN_CONTROL_CHANNEL 4 40000 4000 0 with rpm_measured := 1500, last_int := 100 } 50 =
      some { FAN_CONTROL_CHANNEL 4 40000 4000 0 with
        rpm_measured := 30000 / (50 + UINT32_MOD - 100)
        last_int := 50 } :=
  tacho_callback_body_earlier_tick
    { FAN_CONTROL_CHANNEL 4 40000 4000 0 with rpm_measured := 1500, last_int := 100 } 50
    (by decide) (by decide)

/-- C3, counterexample.  On a freshly initialised channel a single edge at tick `1000` sets
`rpm_measured` to `30000 / 1000 = 30` instead of leaving it at `0`: the zero in `last_int` is
taken for an edge at tick `0`. -/
theorem tacho_callback_first_edge_sets_rpm :
    tacho_callback_body (FAN_CONTROL_CHANNEL 4 40000 4000 0) 1000 =
      some { FAN_CONTROL_CHANNEL 4 40000 4000 0 with rpm_measured := 30, last_int := 1000 } ∧
    ¬ ∃ c1 : fan_control,
      tacho_callback_body (FAN_CONTROL_CHANNEL 4 40000 4000 0) 1000 = some c1 ∧
      c1.rpm_measured = (FAN_CONTROL_CHANNEL 4 40000 4000 0).rpm_measured := by
  have h : tacho_callback_body (FAN_CONTROL_CHANNEL 4 40000 4000 0) 1000 =
      some { FAN_CONTROL_CHANNEL 4 40000 4000 0 with rpm_measured := 30, last_int := 1000 } := by
    decide
  refine ⟨h, ?_⟩
  rintro ⟨c1, h1, h2⟩
  rw [h] at h1
  cases h1
  exact absurd h2 (by decide)

/-- C3, amended.  For a freshly initialised channel and every tick `0 < now < 2 ^ 32`, a single
call of `tacho_callback` sets `last_int = now` and `rpm_measured = 30000 / now`; `rpm_measured`
stays `0` exactly when `now > 30000`. -/
theorem tacho_callback_body_first_edge (tacho_pin pwm_period rpm_max rpm_min now : Nat)
    (h0 : 0 < now) (h1 : now < UINT32_MOD) :
    tacho_callback_body (FAN_CONTROL_CHANNEL tacho_pin pwm_period rpm_max rpm_min) now =
      some { FAN_CONTROL_CHANNEL tacho_pin pwm_period rpm_max rpm_min with
        rpm_measured := 30000 / now
        last_int := now } ∧
    (30000 / now = 0 ↔ 30000 < now) := by
  have h : u32_sub now (FAN_CONTROL_CHANNEL tacho_pin pwm_period rpm_max rpm_min).last_int
      = now := by
    show u32_sub now 0 = now
    rw [u32_sub_of_le now 0 h1 (Nat.zero_le now)]
    rfl
  refine ⟨?_, ?_⟩
  · rw [tacho_callback_body_of_ne _ now (by rw [h]; omega), h]
  · rw [Nat.div_eq_zero_iff h0]

theorem tacho_callback_body_first_edge_witness :
    tacho_callback_body (FAN_CONTROL_CHANNEL 4 40000 4000 0) 15 =
      some { FAN_CONTROL_CHANNEL 4 40000 4000 0 with
        rpm_measured := 30000 / 15
        last_int := 15 } ∧
    (30000 / 15 = 0 ↔ 30000 < 15) :=
  tacho_callback_body_first_edge 4 40000 4000 0 15 (by decide) (by decide)

/-! ## Stall detector -/

theorem check_no_spin_body_of_zero (c : fan_control) (now : Nat) (h : c.rpm_measured = 0) :
    check_no_spin_body c now = c := by
  unfold check_no_spin_body
  simp [h]

theorem check_no_spin_body_of_gt (c : fan_control) (now : Nat) (h : c.rpm_measured ≠ 0)
    (ht : FAN_NO_SPIN_TIME < u32_sub now c.last_int) :
    check_no_spin_body c now = { c with rpm_measured := 0 } := by
  unfold check_no_spin_body
  simp [h, ht]

theorem check_no_spin_body_of_le (c : fan_control) (now : Nat)
    (ht : u32_sub now c.last_int ≤ FAN_NO_SPIN_TIME) :
    check_no_spin_body c now = c := by
  unfold check_no_spin_body
  simp [Nat.not_lt.mpr ht]

theorem check_no_spin_body_cases (c : fan_control) (now : Nat) :
    check_no_spin_body c now = c ∨ check_no_spin_body c now = { c with rpm_measured := 0 } := by
  by_cases h : c.rpm_measured = 0
  · exact Or.inl (check_no_spin_body_of_zero c now h)
  · by_cases ht : u32_sub now c.last_int ≤ FAN_NO_SPIN_TIME
    · exact Or.inl (check_no_spin_body_of_le c now ht)
    · exact Or.inr (check_no_spin_body_of_gt c now h (Nat.not_le.mp ht))

/-- The loop body of `check_no_spin` in terms of the 32-bit difference `u32_sub now last_int`,
which is the plain difference when `last_int ≤ now`. -/
theorem check_no_spin_body_stall (c : fan_control) (now : Nat) (hnow : now < UINT32_MOD) :
    (c.rpm_measured ≠ 0 → 1000 < u32_sub now c.last_int →
      check_no_spin_body c now = { c with rpm_measured := 0 }) ∧
    (c.rpm_measured ≠ 0 → u32_sub now c.last_int ≤ 1000 → check_no_spin_body c now = c) ∧
    (c.rpm_measured = 0 → check_no_spin_body c now = c) ∧
    (check_no_spin_body c now).last_int = c.last_int ∧
    (check_no_spin_body c now).rpm_target = c.rpm_target ∧
    (c.last_int ≤ now → u32_sub now c.last_int = now - c.last_int) := by
  refine ⟨fun h ht => check_no_spin_body_of_gt c now h ht,
    fun _ ht => check_no_spin_body_of_le c now ht,
    fun h => check_no_spin_body_of_zero c now h, ?_, ?_,
    fun h => u32_sub_of_le now c.last_int hnow h⟩
  · rcases check_no_spin_body_cases c now with h | h <;> rw [h]
  · rcases check_no_spin_body_cases c now with h | h <;> rw [h]

theorem check_no_spin_body_stall_witness :
    check_no_spin_body
        { FAN_CONTROL_CHANNEL 4 40000 4000 0 with rpm_measured := 1500, last_int := 3000 } 5000 =
      { FAN_CONTROL_CHANNEL 4 40000 4000 0 with rpm_measured := 0, last_int := 3000 } :=
  (check_no_spin_body_stall
      { FAN_CONTROL_CHANNEL 4 40000 4000 0 with rpm_measured := 1500, last_int := 3000 }
      5000 (by decide)).1 (by decide) (by decide)

/-- C4, counterexample.  A channel with `rpm_measured = 1500` and `last_int = 5000` is checked at
the earlier tick `4500`: the difference `4500 - 5000` is not greater than `1000`, yet
`check_no_spin` computes the wrapped 32-bit difference `2 ^ 32 - 500` and zeroes
`rpm_measured`. -/
theorem check_no_spin_earlier_tick_zeroes :
    (4500 : Int) -
        (({ FAN_CONTROL_CHANNEL 4 40000 4000 0 with rpm_measured := 1500, last_int := 5000 } :
          fan_control).last_int : Int) ≤ 1000 ∧
    u32_sub 4500 5000 = 4294966796 ∧
    check_no_spin
        [{ FAN_CONTROL_CHANNEL 4 40000 4000 0 with rpm_measured := 1500, last_int := 5000 }]
        (fun _ => 4500) =
      [{ FAN_CONTROL_CHANNEL 4 40000 4000 0 with rpm_measured := 0, last_int := 5000 }] ∧
    check_no_spin
        [{ FAN_CONTROL_CHANNEL 4 40000 4000 0 with rpm_measured := 1500, last_int := 5000 }]
        (fun _ => 4500) ≠
      [{ FAN_CONTROL_CHANNEL 4 40000 4000 0 with rpm_measured := 1500, last_int := 5000 }] := by
  decide

/-- C4, amended.  For channel `i` of `fan_channels`, with `now i` the tick read for it:
`check_no_spin` sets a non-zero `rpm_measured` to `0` if the unsigned 32-bit difference
`(now - last_int) mod 2 ^ 32` exceeds `1000` and leaves the channel unchanged if that difference
is at most `1000`; the difference is `now - last_int` when `last_int ≤ now` and
`now + 2 ^ 32 - last_int` when `now < last_int`.  A channel with `rpm_measured = 0` is left
unchanged, and `last_int` and `rpm_target` never change. -/
theorem check_no_spin_stall (fans : List fan_control) (now : Nat → Nat) (i : Nat)
    (c : fan_control) (hfan : fans[i]? = some c)
    (hnow : now i < UINT32_MOD) (hlast : c.last_int < UINT32_MOD) :
    (c.rpm_measured ≠ 0 → 1000 < u32_sub (now i) c.last_int →
      (check_no_spin fans now)[i]? = some { c with rpm_measured := 0 }) ∧
    (c.rpm_measured ≠ 0 → u32_sub (now i) c.last_int ≤ 1000 →
      (check_no_spin fans now)[i]? = some c) ∧
    (c.rpm_measured = 0 → (check_no_spin fans now)[i]? = some c) ∧
    (∃ c1 : fan_control, (check_no_spin fans now)[i]? = some c1 ∧
      c1.last_int = c.last_int ∧ c1.rpm_target = c.rpm_target) ∧
    (c.last_int ≤ now i → u32_sub (now i) c.last_int = now i - c.last_int) ∧
    (now i < c.last_int → u32_sub (now i) c.last_int = now i + UINT32_MOD - c.last_int) := by
  have hget : (check_no_spin fans now)[i]? = some (check_no_spin_body c (now i)) := by
    unfold check_no_spin
    rw [check_no_spin_from_get, hfan, Nat.zero_add]
    rfl
  have hb := check_no_spin_body_stall c (now i) hnow
  refine ⟨fun h ht => by rw [hget, hb.1 h ht], fun h ht => by rw [hget, hb.2.1 h ht],
    fun h => by rw [hget, hb.2.2.1 h],
    ⟨check_no_spin_body c (now i), hget, hb.2.2.2.1, hb.2.2.2.2.1⟩,
    hb.2.2.2.2.2, fun h => u32_sub_of_lt (now i) c.last_int hlast h⟩

theorem check_no_spin_stall_witness :
    (check_no_spin
        [FAN_CONTROL_CHANNEL 3 40000 1800 0,
         { FAN_CONTROL_CHANNEL 4 40000 4000 0 with rpm_measured := 1500, last_int := 3000 }]
        (fun _ => 5000))[1]? =
      some { FAN_CONTROL_CHANNEL 4 40000 4000 0 with rpm_measured := 0, last_int := 3000 } :=
  (check_no_spin_stall
      [FAN_CONTROL_CHANNEL 3 40000 1800 0,
       { FAN_CONTROL_CHANNEL 4 40000 4000 0 with rpm_measured := 1500, last_int := 3000 }]
      (fun _ => 5000) 1
      { FAN_CONTROL_CHANNEL 4 40000 4000 0 with rpm_measured := 1500, last_int := 3000 }
      rfl (by decide) (by decide)).1 (by decide) (by decide)

/-! ## Wraparound -/

/-- The loop bodies at a tick `d` after `last_int` modulo `2 ^ 32`: both compute the interval
`d`. -/
theorem tick_interval_wraparound (c : fan_control) (d : Nat)
    (hd0 : 0 < d) (hd : d < UINT32_MOD) :
    u32_sub ((c.last_int + d) % UINT32_MOD) c.last_int = d ∧
    tacho_callback_body c ((c.last_int + d) % UINT32_MOD) =
      some { c with rpm_measured := 30000 / d, last_int := (c.last_int + d) % UINT32_MOD } ∧
    (c.rpm_measured ≠ 0 →
      ((check_no_spin_body c ((c.last_int + d) % UINT32_MOD)).rpm_measured = 0 ↔ 1000 < d) ∧
      (1000 < d →
        check_no_spin_body c ((c.last_int + d) % UINT32_MOD) = { c with rpm_measured := 0 }) ∧
      (d ≤ 1000 → check_no_spin_body c ((c.last_int + d) % UINT32_MOD) = c)) := by
  have h := u32_sub_wrapped c.last_int d hd
  refine ⟨h, ?_, ?_⟩
  · rw [tacho_callback_body_of_ne c _ (by rw [h]; omega), h]
  · intro hne
    have hgt : 1000 < d →
        check_no_spin_body c ((c.last_int + d) % UINT32_MOD) = { c with rpm_measured := 0 } :=
      fun h1 => check_no_spin_body_of_gt c _ hne (by rw [h]; exact h1)
    have hle : d ≤ 1000 → check_no_spin_body c ((c.last_int + d) % UINT32_MOD) = c :=
      fun h1 => check_no_spin_body_of_le c _ (by rw [h]; exact h1)
    refine ⟨⟨fun h0 => ?_, fun h1 => by rw [hgt h1]⟩, hgt, hle⟩
    by_contra hcon
    rw [hle (Nat.not_lt.mp hcon)] at h0
    exact hne h0

/-- Without a wrap of the cycle counter the tick is the rounded quotient itself. -/
theorem tick_source_of_lt (r cycles : Nat) (hr : 0 < r) (hc : cycles < UINT32_MOD) :
    tick_source (1000 * r) cycles = (cycles * 1000 + 1000 * r / 2) / (1000 * r) := by
  unfold tick_source k_cyc_to_ms_near32 k_cycle_get_32
  rw [Nat.mod_eq_of_lt hc]
  apply Nat.mod_eq_of_lt
  rw [Nat.div_lt_iff_lt_mul (by omega)]
  unfold UINT32_MOD at *
  omega

/-- Between two reads without a wrap of the cycle counter, `d` milliseconds of cycles advance
the tick by `d`. -/
theorem tick_source_shift (r cycles d : Nat) (hr : 0 < r)
    (hnw : cycles + d * r < UINT32_MOD) :
    tick_source (1000 * r) (cycles + d * r) = tick_source (1000 * r) cycles + d := by
  have hc : cycles < UINT32_MOD := lt_of_le_of_lt (Nat.le_add_right _ _) hnw
  rw [tick_source_of_lt r _ hr hnw, tick_source_of_lt r _ hr hc]
  have h : (cycles + d * r) * 1000 + 1000 * r / 2 =
      (cycles * 1000 + 1000 * r / 2) + d * (1000 * r) := by ring
  rw [h, Nat.add_mul_div_right _ _ (by omega : 0 < 1000 * r)]

/-- C9, counterexample.  A cycle counter at 16 MHz wraps every `2 ^ 32` cycles, about `268435`
ms.  An edge at cycle `4294880000` is stamped with tick `268430`; `10` ms later the counter has
wrapped and the tick read is `5`, not `(268430 + 10) mod 2 ^ 32`.  The interval computed is
`2 ^ 32 - 268425`, not `10`: `tacho_callback` stores `rpm_measured = 0` instead of
`30000 / 10`, and `check_no_spin` zeroes a non-zero `rpm_measured` although `10 ≤ 1000`. -/
theorem tick_source_wrap_breaks_interval :
    tick_source 16000000 4294880000 = 268430 ∧
    tick_source 16000000 (4294880000 + 10 * 16000) = 5 ∧
    u32_sub 5 268430 = 4294698871 ∧
    tacho_callback
        [{ FAN_CONTROL_CHANNEL 4 40000 4000 0 with rpm_measured := 3000, last_int := 268430 }]
        (BIT 4) (tick_source 16000000 (4294880000 + 10 * 16000)) =
      some [{ FAN_CONTROL_CHANNEL 4 40000 4000 0 with rpm_measured := 0, last_int := 5 }] ∧
    (0 : Nat) ≠ 30000 / 10 ∧
    check_no_spin
        [{ FAN_CONTROL_CHANNEL 4 40000 4000 0 with rpm_measured := 3000, last_int := 268430 }]
        (fun _ => tick_source 16000000 (4294880000 + 10 * 16000)) =
      [{ FAN_CONTROL_CHANNEL 4 40000 4000 0 with rpm_measured := 0, last_int := 268430 }] ∧
    ¬ (1000 < 10) := by
  decide

/-- C9, amended.  The tick arithmetic is correct between two reads of the tick source that are
not separated by a wrap of the 32-bit cycle counter.  For a counter at `1000 * r` Hz, a channel
whose last edge was stamped at cycle count `c1`, and a read `d > 0` milliseconds (`d * r` cycles)
later with `c1 + d * r < 2 ^ 32`: the tick read is `last_int + d`, the interval computed is `d`,
`tacho_callback` updates the channel to `rpm_measured = 30000 / d` and `last_int = last_int + d`,
and `check_no_spin` zeroes a non-zero `rpm_measured` exactly when `d > 1000`. -/
theorem tick_interval_no_cycle_wrap (r c1 d pins : Nat) (pre post : List fan_control)
    (c : fan_control) (now : Nat → Nat)
    (hr : 0 < r) (hd0 : 0 < d) (hnw : c1 + d * r < UINT32_MOD)
    (hlast : c.last_int = tick_source (1000 * r) c1)
    (hpre : ∀ p ∈ pre, BIT p.tacho_pin ≠ pins) (hc : BIT c.tacho_pin = pins)
    (hnow : now pre.length = tick_source (1000 * r) (c1 + d * r)) :
    tick_source (1000 * r) (c1 + d * r) = c.last_int + d ∧
    u32_sub (tick_source (1000 * r) (c1 + d * r)) c.last_int = d ∧
    tacho_callback (pre ++ c :: post) pins (tick_source (1000 * r) (c1 + d * r)) =
      some (pre ++ { c with rpm_measured := 30000 / d, last_int := c.last_int + d } :: post) ∧
    (c.rpm_measured ≠ 0 →
      (1000 < d →
        (check_no_spin (pre ++ c :: post) now)[pre.length]? =
          some { c with rpm_measured := 0 }) ∧
      (d ≤ 1000 → (check_no_spin (pre ++ c :: post) now)[pre.length]? = some c)) := by
  have hshift : tick_source (1000 * r) (c1 + d * r) = c.last_int + d := by
    rw [tick_source_shift r c1 d hr hnw, hlast]
  have htick : c.last_int + d < UINT32_MOD := by
    rw [← hshift, tick_source_of_lt r _ hr hnw, Nat.div_lt_iff_lt_mul (by omega)]
    unfold UINT32_MOD at *
    omega
  have hd : d < UINT32_MOD := lt_of_le_of_lt (Nat.le_add_left _ _) htick
  have hmod : (c.last_int + d) % UINT32_MOD = c.last_int + d := Nat.mod_eq_of_lt htick
  have hbody := tick_interval_wraparound c d hd0 hd
  rw [hmod] at hbody
  have hget : (check_no_spin (pre ++ c :: post) now)[pre.length]? =
      some (check_no_spin_body c (c.last_int + d)) := by
    have hidx : (pre ++ c :: post)[pre.length]? = some c := by
      rw [List.getElem?_append_right (Nat.le_refl _), Nat.sub_self, List.getElem?_cons_zero]
    unfold check_no_spin
    rw [check_no_spin_from_get, Nat.zero_add, hnow, hshift, hidx]
    rfl
  refine ⟨hshift, by rw [hshift]; exact hbody.1, ?_, fun hne => ⟨fun h => ?_, fun h => ?_⟩⟩
  · rw [hshift, tacho_callback_dispatch pre post c pins _ hpre hc, hbody.2.1]
    rfl
  · rw [hget, ((hbody.2.2 hne).2.1 h)]
  · rw [hget, ((hbody.2.2 hne).2.2 h)]

theorem tick_interval_no_cycle_wrap_witness :
    tacho_callback
        [FAN_CONTROL_CHANNEL 3 40000 1800 0,
         { FAN_CONTROL_CHANNEL 4 40000 4000 0 with rpm_measured := 900, last_int := 10 }]
        (BIT 4) (tick_source (1000 * 16000) (160000 + 20 * 16000)) =
      some ([FAN_CONTROL_CHANNEL 3 40000 1800 0] ++
        { FAN_CONTROL_CHANNEL 4 40000 4000 0 with
            rpm_measured := 30000 / 20, last_int := 10 + 20 } :: []) :=
  (tick_interval_no_cycle_wrap 16000 160000 20 (BIT 4) [FAN_CONTROL_CHANNEL 3 40000 1800 0] []
    { FAN_CONTROL_CHANNEL 4 40000 4000 0 with rpm_measured := 900, last_int := 10 }
    (fun _ => tick_source (1000 * 16000) (160000 + 20 * 16000))
    (by decide) (by decide) (by decide) (by decide) (by decide) (by decide) rfl).2.2.1

/-! ## Target mapper -/

theorem int32_to_u32_natCast (v : Nat) : int32_to_u32 (v : Int) = v % UINT32_MOD := by
  unfold int32_to_u32
  rw [← Int.natCast_mod, Int.toNat_natCast]

/-- The value stored by the assignment in `check_potis` before the lower clamp, for a voltage
within the potentiometer scale: no wraparound occurs. -/
theorem check_potis_stored_in_scale (rpm_max v : Nat) (hmax : rpm_max < UINT16_MOD)
    (hv : v ≤ FAN_POTI_MAX_VOLTAGE) :
    ((rpm_max % UINT32_MOD * int32_to_u32 (v : Int)) % UINT32_MOD / FAN_POTI_MAX_VOLTAGE)
        % UINT16_MOD = rpm_max * v / FAN_POTI_MAX_VOLTAGE ∧
    rpm_max * v / FAN_POTI_MAX_VOLTAGE ≤ rpm_max := by
  have hq : rpm_max * v / FAN_POTI_MAX_VOLTAGE ≤ rpm_max :=
    Nat.div_le_of_le_mul (by
      rw [Nat.mul_comm FAN_POTI_MAX_VOLTAGE rpm_max]
      exact Nat.mul_le_mul_left rpm_max hv)
  refine ⟨?_, hq⟩
  have hprod : rpm_max * v < UINT32_MOD := by
    have h1 : rpm_max * v ≤ 65535 * 3000 :=
      Nat.mul_le_mul (by unfold UINT16_MOD at hmax; omega)
        (by unfold FAN_POTI_MAX_VOLTAGE at hv; exact hv)
    unfold UINT32_MOD
    omega
  have hv32 : v < UINT32_MOD := by
    unfold FAN_POTI_MAX_VOLTAGE at hv
    unfold UINT32_MOD
    omega
  have hm32 : rpm_max < UINT32_MOD := by
    unfold UINT16_MOD at hmax
    unfold UINT32_MOD
    omega
  rw [int32_to_u32_natCast, Nat.mod_eq_of_lt hv32, Nat.mod_eq_of_lt hm32,
    Nat.mod_eq_of_lt hprod, Nat.mod_eq_of_lt (lt_of_le_of_lt hq hmax)]

/-- The lower clamp of `check_potis` always holds after the call. -/
theorem check_potis_body_ge_min (c : fan_control) (tmp : Int) :
    c.rpm_min ≤ (check_potis_body c tmp).rpm_target := by
  unfold check_potis_body
  simp only
  split_ifs with h
  · exact Nat.le_refl _
  · exact Nat.not_lt.mp h

/-- The target written by `check_potis` for a voltage within the potentiometer scale. -/
theorem check_potis_body_target_in_scale (c : fan_control) (v : Nat)
    (hmax : c.rpm_max < UINT16_MOD) (hv : v ≤ FAN_POTI_MAX_VOLTAGE) :
    (check_potis_body c (v : Int)).rpm_target =
      max c.rpm_min (c.rpm_max * v / FAN_POTI_MAX_VOLTAGE) := by
  have hs := (check_potis_stored_in_scale c.rpm_max v hmax hv).1
  unfold check_potis_body
  simp only [hs]
  split_ifs with h
  · exact (max_eq_left (Nat.le_of_lt h)).symm
  · exact (max_eq_right (Nat.not_lt.mp h)).symm

/-- At `0` mV the target written by `check_potis` is `rpm_min`, for any bounds. -/
theorem check_potis_body_target_in_scale_zero (c : fan_control) :
    (check_potis_body c 0).rpm_target = c.rpm_min := by
  have h0 : int32_to_u32 0 = 0 := by decide
  unfold check_potis_body
  simp only [h0, Nat.mul_zero, Nat.zero_mod, Nat.zero_div]
  split_ifs with h
  · rfl
  · exact (Nat.le_zero.mp (Nat.not_lt.mp h)).symm

/-- C5, counterexample.  With `rpm_min = 1000`, `rpm_max = 2000` and a mid-scale reading of
`1500` mV, `check_potis` stores `max 1000 (2000 * 1500 / 3000) = 1000`, whereas the linear
interpolation between `rpm_min` and `rpm_max` at `1500 / 3000` is `1500`. -/
theorem check_potis_body_not_interpolation :
    (FAN_CONTROL_CHANNEL 4 40000 2000 1000).rpm_min ≤
      (FAN_CONTROL_CHANNEL 4 40000 2000 1000).rpm_max ∧
    (check_potis_body (FAN_CONTROL_CHANNEL 4 40000 2000 1000) 1500).rpm_target = 1000 ∧
    lerp_spec 1000 2000 1500 = 1500 ∧
    (check_potis_body (FAN_CONTROL_CHANNEL 4 40000 2000 1000) 1500).rpm_target ≠
      lerp_spec (FAN_CONTROL_CHANNEL 4 40000 2000 1000).rpm_min
        (FAN_CONTROL_CHANNEL 4 40000 2000 1000).rpm_max 1500 := by
  decide

/-- C5, amended.  For every channel with 16-bit bounds `rpm_min ≤ rpm_max` and every voltage
`0 ≤ v ≤ 3000` mV, `check_potis` stores `max rpm_min (rpm_max * v / 3000)`, the quotient
truncated: `rpm_min` at `0` mV, `rpm_max` at `3000` mV, and the linear interpolation between
`rpm_min` and `rpm_max` whenever `rpm_min = 0`. -/
theorem check_potis_body_linear_law (c : fan_control) (v : Nat)
    (hmax : c.rpm_max < UINT16_MOD) (hmm : c.rpm_min ≤ c.rpm_max)
    (hv : v ≤ FAN_POTI_MAX_VOLTAGE) :
    (check_potis_body c (v : Int)).rpm_target =
      max c.rpm_min (c.rpm_max * v / FAN_POTI_MAX_VOLTAGE) ∧
    (v = 0 → (check_potis_body c (v : Int)).rpm_target = c.rpm_min) ∧
    (v = FAN_POTI_MAX_VOLTAGE → (check_potis_body c (v : Int)).rpm_target = c.rpm_max) ∧
    (c.rpm_min = 0 →
      (check_potis_body c (v : Int)).rpm_target = lerp_spec c.rpm_min c.rpm_max v) := by
  have ht := check_potis_body_target_in_scale c v hmax hv
  refine ⟨ht, ?_, ?_, ?_⟩
  · intro h0
    rw [ht, h0, Nat.mul_zero, Nat.zero_div]
    exact max_eq_left (Nat.zero_le _)
  · intro h1
    rw [ht, h1, Nat.mul_div_cancel _ (by decide : 0 < FAN_POTI_MAX_VOLTAGE)]
    exact max_eq_right hmm
  · intro h0
    rw [ht, h0]
    unfold lerp_spec
    rw [Nat.sub_zero, Nat.zero_add]
    exact max_eq_right (Nat.zero_le _)

theorem check_potis_body_linear_law_witness :
    (check_potis_body (FAN_CONTROL_CHANNEL 4 40000 FAN0_MAX_RPM FAN0_MIN_RPM)
        ((1000 : Nat) : Int)).rpm_target =
      max FAN0_MIN_RPM (FAN0_MAX_RPM * 1000 / FAN_POTI_MAX_VOLTAGE) :=
  (check_potis_body_linear_law (FAN_CONTROL_CHANNEL 4 40000 FAN0_MAX_RPM FAN0_MIN_RPM) 1000
    (by decide) (by decide) (by decide)).1

/-- C6, counterexample.  With `rpm_max = 4000`, `rpm_min = 0` and a reading of `6000` mV,
`check_potis` stores `4000 * 6000 / 3000 = 8000`, above `rpm_max`: there is no upper clamp. -/
theorem check_potis_body_exceeds_max :
    (FAN_CONTROL_CHANNEL 4 40000 FAN1_MAX_RPM FAN1_MIN_RPM).rpm_min ≤
      (FAN_CONTROL_CHANNEL 4 40000 FAN1_MAX_RPM FAN1_MIN_RPM).rpm_max ∧
    (check_potis_body (FAN_CONTROL_CHANNEL 4 40000 FAN1_MAX_RPM FAN1_MIN_RPM) 6000).rpm_target
      = 8000 ∧
    ¬ (check_potis_body (FAN_CONTROL_CHANNEL 4 40000 FAN1_MAX_RPM FAN1_MIN_RPM) 6000).rpm_target
      ≤ (FAN_CONTROL_CHANNEL 4 40000 FAN1_MAX_RPM FAN1_MIN_RPM).rpm_max := by
  decide

/-- C6, amended.  For every channel with 16-bit bounds `rpm_min ≤ rpm_max` and every millivolt
value, the target stored by `check_potis` is a 16-bit value with `rpm_min ≤ rpm_target`; it also
satisfies `rpm_target ≤ rpm_max` when the millivolt value lies in `0 .. 3000`. -/
theorem check_potis_body_bounds (c : fan_control) (tmp : Int)
    (hmax : c.rpm_max < UINT16_MOD) (hmm : c.rpm_min ≤ c.rpm_max) :
    c.rpm_min ≤ (check_potis_body c tmp).rpm_target ∧
    (check_potis_body c tmp).rpm_target < UINT16_MOD ∧
    (0 ≤ tmp → tmp ≤ 3000 → (check_potis_body c tmp).rpm_target ≤ c.rpm_max) := by
  refine ⟨check_potis_body_ge_min c tmp, ?_, ?_⟩
  · unfold check_potis_body
    simp only
    split_ifs with h
    · exact lt_of_le_of_lt hmm hmax
    · exact Nat.mod_lt _ (by decide)
  · intro h0 h1
    obtain ⟨v, rfl⟩ := Int.eq_ofNat_of_zero_le h0
    have hv : v ≤ FAN_POTI_MAX_VOLTAGE := by
      unfold FAN_POTI_MAX_VOLTAGE
      omega
    rw [check_potis_body_target_in_scale c v hmax hv]
    exact max_le hmm (check_potis_stored_in_scale c.rpm_max v hmax hv).2

theorem check_potis_body_bounds_witness :
    (check_potis_body (FAN_CONTROL_CHANNEL 4 40000 FAN1_MAX_RPM FAN1_MIN_RPM) 2999).rpm_target
      ≤ FAN1_MAX_RPM :=
  (check_potis_body_bounds (FAN_CONTROL_CHANNEL 4 40000 FAN1_MAX_RPM FAN1_MIN_RPM) 2999
    (by decide) (by decide)).2.2 (by decide) (by decide)

/-- C8, counterexample.  A channel whose previous target is `1234` and whose ADC read fails:
the sample buffer entry stays `0`, a conversion mapping raw `0` to `0` mV yields target
`4000 * 0 / 3000 = 0`, and the previous target is overwritten. -/
theorem check_potis_failed_read_overwrites :
    check_potis [{ FAN_CONTROL_CHANNEL 4 40000 FAN1_MAX_RPM FAN1_MIN_RPM with rpm_target := 1234 }]
        (fun _ => none) (fun _ raw => raw * 3000 / 4096) =
      [{ FAN_CONTROL_CHANNEL 4 40000 FAN1_MAX_RPM FAN1_MIN_RPM with rpm_target := 0 }] ∧
    (check_potis_channel (fun _ => none) (fun _ raw => raw * 3000 / 4096) 0
        { FAN_CONTROL_CHANNEL 4 40000 FAN1_MAX_RPM FAN1_MIN_RPM with rpm_target := 1234 }).rpm_target
      ≠ ({ FAN_CONTROL_CHANNEL 4 40000 FAN1_MAX_RPM FAN1_MIN_RPM with rpm_target := 1234 } :
          fan_control).rpm_target := by
  decide

/-- C8, amended.  When the ADC read for channel `i` fails, `check_potis` does not keep the
previous target: whatever the previous target and the bounds, it stores the target computed from
the zero-initialised buffer entry, the same as for a successful read of raw sample `0`; when raw
`0` converts to `0` mV that target is `rpm_min`. -/
theorem check_potis_channel_failed_read (c : fan_control) (prev i : Nat)
    (adc_read : Nat → Option Nat) (raw_to_millivolts : Nat → Int → Int)
    (hfail : adc_read i = none) :
    (check_potis_channel adc_read raw_to_millivolts i { c with rpm_target := prev }).rpm_target =
      (check_potis_body c (raw_to_millivolts i 0)).rpm_target ∧
    check_potis_channel adc_read raw_to_millivolts i { c with rpm_target := prev } =
      check_potis_channel (fun _ => some 0) raw_to_millivolts i c ∧
    (raw_to_millivolts i 0 = 0 →
      (check_potis_channel adc_read raw_to_millivolts i
        { c with rpm_target := prev }).rpm_target = c.rpm_min) := by
  have hr : adc_reading (adc_read i) = 0 := by
    rw [hfail]
    rfl
  have hbody : ∀ tmp : Int,
      check_potis_body { c with rpm_target := prev } tmp = check_potis_body c tmp := by
    intro tmp
    unfold check_potis_body
    rfl
  have h1 : check_potis_channel adc_read raw_to_millivolts i { c with rpm_target := prev } =
      check_potis_body c (raw_to_millivolts i 0) := by
    unfold check_potis_channel
    rw [hr, hbody]
    rfl
  refine ⟨by rw [h1], ?_, ?_⟩
  · rw [h1]
    rfl
  · intro h0
    rw [h1, h0]
    have h2 := check_potis_body_target_in_scale_zero c
    exact h2

theorem check_potis_channel_failed_read_witness :
    (check_potis_channel (fun _ => none) (fun _ raw => raw * 3000 / 4096) 1
        { FAN_CONTROL_CHANNEL 4 40000 2000 500 with rpm_target := 1234 }).rpm_target = 500 :=
  (check_potis_channel_failed_read (FAN_CONTROL_CHANNEL 4 40000 2000 500) 1234 1
    (fun _ => none) (fun _ raw => raw * 3000 / 4096) rfl).2.2 (by decide)

/-! ## Duty driver -/

/-- C7, counterexample.  With period `4000000`, `rpm_target = rpm_max = 4000` the product
`4000000 * 4000` exceeds `2 ^ 32` and wraps: `pwm_update` commits `778774`, not the exact quotient
`4000000 * 4000 / 4000 = 4000000`. -/
theorem pwm_update_body_product_wraps :
    ({ FAN_CONTROL_CHANNEL 4 4000000 4000 0 with rpm_target := 4000 } : fan_control).in_range ∧
    pwm_update_body { FAN_CONTROL_CHANNEL 4 4000000 4000 0 with rpm_target := 4000 } =
      some 778774 ∧
    4000000 * 4000 / 4000 = 4000000 ∧
    pwm_update_body { FAN_CONTROL_CHANNEL 4 4000000 4000 0 with rpm_target := 4000 } ≠
      some (4000000 * 4000 / 4000) := by
  decide

/-- C7, amended.  For every 32-bit period, every `rpm_max > 0` and every `rpm_target ≤ rpm_max`,
`pwm_update` commits `((period * rpm_target) mod 2 ^ 32) / rpm_max`, which is never greater than
the period, and which equals the exact quotient `period * rpm_target / rpm_max` whenever
`period * rpm_target < 2 ^ 32`. -/
theorem pwm_update_body_pulse (c : fan_control)
    (hp : c.pwm_period < UINT32_MOD) (hmax : 0 < c.rpm_max) (ht : c.rpm_target ≤ c.rpm_max) :
    pwm_update_body c = some ((c.pwm_period * c.rpm_target) % UINT32_MOD / c.rpm_max) ∧
    (c.pwm_period * c.rpm_target) % UINT32_MOD / c.rpm_max ≤ c.pwm_period ∧
    (c.pwm_period * c.rpm_target < UINT32_MOD →
      pwm_update_body c = some (c.pwm_period * c.rpm_target / c.rpm_max)) := by
  have h1 : pwm_update_body c =
      some ((c.pwm_period * c.rpm_target) % UINT32_MOD / c.rpm_max) := by
    unfold pwm_update_body
    rw [if_neg (Nat.pos_iff_ne_zero.mp hmax), Nat.mod_eq_of_lt hp]
  refine ⟨h1, ?_, ?_⟩
  · calc (c.pwm_period * c.rpm_target) % UINT32_MOD / c.rpm_max
        ≤ c.pwm_period * c.rpm_target / c.rpm_max :=
          Nat.div_le_div_right (Nat.mod_le _ _)
      _ ≤ c.pwm_period :=
          Nat.div_le_of_le_mul (by
            rw [Nat.mul_comm c.rpm_max c.pwm_period]
            exact Nat.mul_le_mul_left c.pwm_period ht)
  · intro hno
    rw [h1, Nat.mod_eq_of_lt hno]

theorem pwm_update_body_pulse_witness :
    pwm_update_body { FAN_CONTROL_CHANNEL 4 40000 4000 0 with rpm_target := 1000 } =
      some (40000 * 1000 / 4000) :=
  (pwm_update_body_pulse { FAN_CONTROL_CHANNEL 4 40000 4000 0 with rpm_target := 1000 }
    (by decide) (by decide) (by decide)).2.2 (by decide)

/-! ## One control step -/

end Fan32
